import Mathlib

/-!
Verification development for the library-management chat bot (src/app.py).

The core of the program is:
  * `DatabaseManager` over a SQLite table `books (book_id, name, subject, price, edition)`
    with operations `add_book`, `remove_book`, `get_all_books`;
  * `find_books` — search by SQL `LIKE` over lower-cased `name`/`subject`;
  * `get_recommendations` — subject-based fallback suggestions.

Embedding choices:
  * Strings are `List Char`.  Python `str.lower()` and SQLite `LOWER` are modelled by
    mapping `Char.toLower` (ASCII lowering, which is exactly SQLite `LOWER`); Python
    `str.strip()` is modelled by dropping whitespace at both ends.
  * The table is a `Store`: the list of rows in insertion (rowid) order plus the
    AUTOINCREMENT counter.  A bare `SELECT *` yields rows in stored order, as SQLite does.
  * Each SQLite call that the code wraps in `try/except sqlite3.Error` takes a `fail`
    flag: `fail = true` means the underlying SQLite operation raises, and the function
    then does what the `except` branch of the source does.
  * SQLite `LIKE` is modelled by `likeMatch` with the `%` and `_` wildcards.  `LIKE`'s
    ASCII case-folding is the identity here because the code lower-cases both operands
    before the comparison, so characters are compared with plain equality.
  * The iteration order of the Python set `{book['subject'] for book in ...}` is not
    defined by the store's contents; `get_recommendations` therefore receives the
    enumeration `iter` of that set as an explicit argument, constrained by `ValidIter`.
-/

/-- A row of the `books` table. -/
structure Book where
  book_id : Nat
  name : List Char
  subject : List Char
  price : Rat
  edition : Int
deriving DecidableEq, Repr

/-- The persistent state: rows in insertion (rowid) order, plus the AUTOINCREMENT
counter for the next `book_id`. -/
structure Store where
  rows : List Book
  nextId : Nat
deriving DecidableEq, Repr

/-- Well-formed store: every row id is below the AUTOINCREMENT counter and the rows
are in strictly increasing id order (insertion order). -/
def Store.WF (s : Store) : Prop :=
  (∀ b ∈ s.rows, b.book_id < s.nextId) ∧
    s.rows.Pairwise (fun a b => a.book_id < b.book_id)

/-- Python `str.lower()` / SQLite `LOWER` (ASCII case folding). -/
def lowerL (l : List Char) : List Char :=
  l.map Char.toLower

/-- Python `str.strip()`: drop whitespace at both ends. -/
def trimL (l : List Char) : List Char :=
  ((l.dropWhile Char.isWhitespace).reverse.dropWhile Char.isWhitespace).reverse

/-- `query.strip().lower()` as the source computes it. -/
def stripLower (q : List Char) : List Char :=
  lowerL (trimL q)

/-- Does `p` occur at the head of `s`?  (Helper for the substring test.) -/
def headMatch : List Char → List Char → Bool
  | [], _ => true
  | _ :: _, [] => false
  | c :: p, d :: s => c == d && headMatch p s

/-- Python's `p in s` for strings: `p` occurs contiguously somewhere in `s`. -/
def isSubstr (p : List Char) : List Char → Bool
  | [] => headMatch p []
  | d :: s => headMatch p (d :: s) || isSubstr p s

/-- The mathematical substring relation: `s` contains `p` contiguously. -/
def Substr (p s : List Char) : Prop :=
  ∃ l r, s = l ++ p ++ r

/-- SQLite `LIKE` pattern matching: `%` matches any sequence, `_` any single
character.  Ordinary characters compare with equality (both operands are already
lower-cased by the code, so `LIKE`'s ASCII case-folding adds nothing). -/
def likeMatch : List Char → List Char → Bool
  | [], [] => true
  | [], _ :: _ => false
  | c :: p, s =>
    if c == '%' then
      likeMatch p s ||
        (match s with
         | [] => false
         | _ :: s' => likeMatch (c :: p) s')
    else
      match s with
      | [] => false
      | d :: s' => (if c == '_' then true else c == d) && likeMatch p s'
termination_by p s => p.length + s.length

/-- `DatabaseManager.add_book` (src/app.py:60-75): `INSERT INTO books ...; commit`,
returning `cursor.lastrowid`; on `sqlite3.Error` the error is printed and `None` is
returned, and the uncommitted insert is rolled back when the connection closes. -/
def add_book (s : Store) (fail : Bool) (name subject : List Char) (price : Rat)
    (edition : Int) : Store × Option Nat :=
  if fail then
    (s, none)
  else
    (⟨s.rows ++ [⟨s.nextId, name, subject, price, edition⟩], s.nextId + 1⟩, some s.nextId)

/-- `DatabaseManager.remove_book` (src/app.py:77-89): `DELETE FROM books WHERE
book_id = ?; commit`, returning `cursor.rowcount > 0`; on `sqlite3.Error` the error is
printed and `False` is returned with the store unchanged. -/
def remove_book (s : Store) (fail : Bool) (book_id : Nat) : Store × Bool :=
  if fail then
    (s, false)
  else
    (⟨s.rows.filter (fun b => ¬ b.book_id = book_id), s.nextId⟩,
      s.rows.any (fun b => b.book_id == book_id))

/-- `DatabaseManager.get_all_books` (src/app.py:91-104): `SELECT * FROM books ORDER BY
book_id DESC`; on `sqlite3.Error` the error is printed and `[]` is returned. -/
def get_all_books (s : Store) (fail : Bool) : List Book :=
  if fail then
    []
  else
    s.rows.mergeSort (fun a b => decide (b.book_id ≤ a.book_id))

/-- `find_books` (src/app.py:108-127): builds the pattern `'%' + query.strip().lower()
+ '%'` and runs `SELECT * FROM books WHERE LOWER(name) LIKE ? OR LOWER(subject) LIKE ?`;
on `sqlite3.Error` the error is printed and `[]` is returned.  A `SELECT` leaves the
store unchanged, which the returned `Store` component records. -/
def find_books (s : Store) (fail : Bool) (query : List Char) : Store × List Book :=
  if fail then
    (s, [])
  else
    (s, s.rows.filter (fun b =>
      likeMatch ( '%' :: (stripLower query ++ [ '%' ])) (lowerL b.name) ||
        likeMatch ( '%' :: (stripLower query ++ [ '%' ])) (lowerL b.subject)))

/-- `", ".join(xs)` for the subject listing. -/
def joinComma : List (List Char) → List Char
  | [] => []
  | [x] => x
  | x :: y :: xs => x ++ ( ", " ).data ++ joinComma (y :: xs)

/-- The message of src/app.py:143-144: names the query and lists the known subjects
comma-joined, or states that none are available. -/
def noMatchMsg (query : List Char) (iter : List (List Char)) : List Char :=
  ( "I couldn't find a direct match for '" ).data ++ query ++
    ( "'. Try searching one of these subjects: " ).data ++
    (if iter.isEmpty then ( "No subjects available." ).data else joinComma iter)

/-- The success message of src/app.py:161, naming the target subject. -/
def successMsg (target : List Char) : List Char :=
  ( "💡 I didn't find that specific book, but since you are interested in **" ).data ++
    target ++ ( "**, check out these related titles:" ).data

/-- The recommendation error message of src/app.py:166. -/
def recErrMsg : List Char :=
  ( "Sorry, an error occurred while fetching recommendations." ).data

/-- `iter` really enumerates the Python set `{book['subject'] for book in
db_manager.get_all_books()}`: no duplicates, and membership is exactly the subjects of
the store's rows. -/
def ValidIter (s : Store) (iter : List (List Char)) : Prop :=
  iter.Nodup ∧ (∀ x ∈ iter, x ∈ s.rows.map Book.subject) ∧
    (∀ x ∈ s.rows.map Book.subject, x ∈ iter)

/-- `get_recommendations` (src/app.py:129-168).  `iter` is the iteration order of the
subject set (see `ValidIter`); `fail` is the failure oracle of the
`SELECT * FROM books WHERE subject = ?` read in the second step.  Python's
`if not matched_subject:` (src/app.py:142) is falsy both for `None` and for the empty
string, so an empty-string subject delivered by `next(...)` is treated as no match;
the subject of a first found book is used as target without that truthiness check. -/
def get_recommendations (s : Store) (fail : Bool) (iter : List (List Char))
    (query0 : List Char) (found_books : List Book) : Store × (List Char × List Book) :=
  let query := stripLower query0
  let target? : Option (List Char) :=
    match found_books with
    | b :: _ => some b.subject
    | [] =>
      match iter.find? (fun sub => isSubstr query (lowerL sub)) with
      | some t => if t.isEmpty then none else some t
      | none => none
  match target? with
  | none => (s, (noMatchMsg query iter, []))
  | some target =>
    if fail then
      (s, (recErrMsg, []))
    else
      (s, (successMsg target,
        (s.rows.filter (fun b => b.subject == target)).filter
          (fun b => ¬ lowerL b.name == query)))

/-- A pattern fragment with no SQL `LIKE` wildcards. -/
def NoWild (p : List Char) : Prop :=
  ¬ '%' ∈ p ∧ ¬ '_' ∈ p

instance (p : List Char) : Decidable (NoWild p) :=
  inferInstanceAs (Decidable (¬ '%' ∈ p ∧ ¬ '_' ∈ p))

instance (s : Store) (iter : List (List Char)) : Decidable (ValidIter s iter) :=
  inferInstanceAs (Decidable (iter.Nodup ∧ (∀ x ∈ iter, x ∈ s.rows.map Book.subject) ∧
    (∀ x ∈ s.rows.map Book.subject, x ∈ iter)))

theorem headMatch_iff (p : List Char) : ∀ s, headMatch p s = true ↔ ∃ r, s = p ++ r := by
  induction p with
  | nil => intro s; simp [headMatch]
  | cons c p ih =>
    intro s
    cases s with
    | nil => simp [headMatch]
    | cons d s =>
      simp only [headMatch, Bool.and_eq_true, beq_iff_eq, ih, List.cons_append,
        List.cons_eq_cons]
      constructor
      · rintro ⟨hcd, r, hr⟩
        exact ⟨r, hcd.symm, hr⟩
      · rintro ⟨r, hdc, hr⟩
        exact ⟨hdc.symm, r, hr⟩

theorem isSubstr_iff (p : List Char) : ∀ s, isSubstr p s = true ↔ Substr p s := by
  intro s
  induction s with
  | nil =>
    simp [isSubstr, headMatch_iff, Substr]
  | cons d s ih =>
    simp [isSubstr, headMatch_iff, ih, Substr]
    constructor
    · rintro (⟨r, hr⟩ | ⟨l, r, hr⟩)
      · exact ⟨[], r, by simpa using hr⟩
      · exact ⟨d :: l, r, by simp [hr]⟩
    · rintro ⟨l, r, hr⟩
      cases l with
      | nil => exact Or.inl ⟨r, by simpa using hr⟩
      | cons x l =>
        simp [List.cons_eq_cons] at hr
        exact Or.inr ⟨l, r, hr.2⟩

theorem likeMatch_pct_only : ∀ s, likeMatch [ '%' ] s = true := by
  intro s
  induction s with
  | nil => simp [likeMatch]
  | cons d s ih => simp [likeMatch, ih]

theorem likeMatch_noWild_pct : ∀ (p : List Char), NoWild p →
    ∀ s, likeMatch (p ++ [ '%' ]) s = true ↔ ∃ r, s = p ++ r := by
  intro p
  induction p with
  | nil =>
    intro _ s
    simp [likeMatch_pct_only s]
  | cons c p ih =>
    intro hp s
    have hc : ¬ c = '%' ∧ ¬ c = '_' ∧ NoWild p := by
      simp [NoWild] at hp ⊢
      tauto
    cases s with
    | nil =>
      simp [likeMatch, hc.1]
    | cons d s =>
      simp only [List.cons_append, likeMatch, if_neg, hc.1, hc.2.1, beq_iff_eq,
        if_false, Bool.and_eq_true, ih hc.2.2, List.cons_eq_cons]
      constructor
      · rintro ⟨hcd, r, hr⟩
        exact ⟨r, hcd.symm, hr⟩
      · rintro ⟨r, hdc, hr⟩
        exact ⟨hdc.symm, r, hr⟩

theorem likeMatch_pct_cons (p : List Char) : ∀ s, likeMatch ( '%' :: p) s = true ↔
    ∃ l t, s = l ++ t ∧ likeMatch p t = true := by
  intro s
  induction s with
  | nil =>
    have h0 : likeMatch ( '%' :: p) [] = likeMatch p [] := by
      simp [likeMatch]
    rw [h0]
    constructor
    · intro h
      exact ⟨[], [], rfl, h⟩
    · rintro ⟨l, t, hlt, h⟩
      have ht : t = [] := (List.append_eq_nil.mp hlt.symm).2
      rw [ht] at h
      exact h
  | cons d s ih =>
    simp only [likeMatch, if_pos, beq_self_eq_true, Bool.or_eq_true, ih]
    constructor
    · rintro (h | ⟨l, t, hs, ht⟩)
      · exact ⟨[], d :: s, rfl, h⟩
      · exact ⟨d :: l, t, by simp [hs], ht⟩
    · rintro ⟨l, t, hs, ht⟩
      cases l with
      | nil =>
        simp at hs
        exact Or.inl (by rw [hs]; exact ht)
      | cons x l =>
        simp [List.cons_eq_cons] at hs
        exact Or.inr ⟨l, t, hs.2, ht⟩

theorem likeMatch_substr (p : List Char) (hp : NoWild p) (s : List Char) :
    likeMatch ( '%' :: (p ++ [ '%' ])) s = true ↔ Substr p s := by
  rw [likeMatch_pct_cons]
  constructor
  · rintro ⟨l, t, hs, ht⟩
    obtain ⟨r, hr⟩ := (likeMatch_noWild_pct p hp t).1 ht
    exact ⟨l, r, by simp [hs, hr]⟩
  · rintro ⟨l, r, hr⟩
    exact ⟨l, p ++ r, by simp [hr], (likeMatch_noWild_pct p hp _).2 ⟨r, rfl⟩⟩

theorem find_books_mem (s : Store) (q : List Char) (hq : NoWild (stripLower q))
    (b : Book) : b ∈ (find_books s false q).2 ↔
      b ∈ s.rows ∧ (Substr (stripLower q) (lowerL b.name) ∨
        Substr (stripLower q) (lowerL b.subject)) := by
  simp [find_books, List.mem_filter, likeMatch_substr _ hq]

theorem substr_self (p : List Char) : Substr p p :=
  ⟨[], [], by simp⟩

theorem substr_app_left (p s t : List Char) (h : Substr p t) : Substr p (s ++ t) := by
  obtain ⟨l, r, rfl⟩ := h
  exact ⟨s ++ l, r, by simp⟩

theorem substr_app_right (p s t : List Char) (h : Substr p s) : Substr p (s ++ t) := by
  obtain ⟨l, r, rfl⟩ := h
  exact ⟨l, r ++ t, by simp⟩

theorem substr_joinComma (x : List Char) :
    ∀ l : List (List Char), x ∈ l → Substr x (joinComma l) := by
  intro l
  induction l with
  | nil => simp
  | cons a l ih =>
    intro hx
    cases List.mem_cons.mp hx with
    | inl h =>
      cases l with
      | nil => simpa [joinComma, h] using substr_self x
      | cons b l =>
        rw [h, joinComma]
        exact substr_app_right _ _ _ (substr_app_right _ _ _ (substr_self a))
    | inr h =>
      cases l with
      | nil => cases h
      | cons b l =>
        rw [joinComma]
        rw [List.append_assoc]
        exact substr_app_left _ _ _ (substr_app_left _ _ _ (ih h))

theorem noMatchMsg_ne_nil (q : List Char) (iter : List (List Char)) :
    noMatchMsg q iter ≠ [] := by
  simp [noMatchMsg]

theorem successMsg_ne_nil (t : List Char) : successMsg t ≠ [] := by
  simp [successMsg]

theorem recErrMsg_ne_nil : recErrMsg ≠ [] := by
  simp [recErrMsg]

theorem find?_eq_some_of_mem_unique {α : Type} (p : α → Bool) (a : α) :
    ∀ l : List α, a ∈ l → p a = true → (∀ x ∈ l, p x = true → x = a) →
      l.find? p = some a := by
  intro l
  induction l with
  | nil => simp
  | cons x l ih =>
    intro ha hpa huniq
    by_cases hx : p x = true
    · have hxa : x = a := huniq x (by simp) hx
      rw [List.find?_cons_of_pos _ hx, hxa]
    · have hxa : ¬ x = a := fun h => hx (h ▸ hpa)
      have ha' : a ∈ l := by
        cases List.mem_cons.mp ha with
        | inl h => exact absurd h.symm hxa
        | inr h => exact h
      rw [List.find?_cons_of_neg _ (by simpa using hx)]
      exact ih ha' hpa (fun y hy hpy => huniq y (List.mem_cons_of_mem x hy) hpy)

theorem isSubstr_nil_left : ∀ s : List Char, isSubstr [] s = true := by
  intro s
  cases s with
  | nil => rfl
  | cons d s => simp [isSubstr, headMatch]

theorem nodup_all_eq_singleton {α : Type} (a : α) : ∀ l : List α, l.Nodup →
    (∀ x ∈ l, x = a) → a ∈ l → l = [a] := by
  intro l
  induction l with
  | nil => intro _ _ h; cases h
  | cons x l ih =>
    intro hnd hall _
    have hx : x = a := hall x (by simp)
    subst hx
    have hl : l = [] := by
      cases hc : l with
      | nil => rfl
      | cons y l2 =>
        have hy : y = x := hall y (by simp [hc])
        exact absurd (by simp [hc, hy]) (List.nodup_cons.mp hnd).1
    simp [hl]

/-- C4 (counterexample): the claim requires a `ValidationError` when `name` or
`subject` is empty, but `add_book` performs no such validation: adding a book with
empty name and subject succeeds, returns the fresh id 1 and persists the row. -/
theorem C4_counterexample :
    (add_book ⟨[], 1⟩ false [] [] 10 1).2 = some 1 ∧
    (add_book ⟨[], 1⟩ false [] [] 10 1).1.rows = [⟨1, [], [], 10, 1⟩] :=
  ⟨rfl, rfl⟩

/-- C4 (amended): `add_book` performs no emptiness validation (empty `name`/`subject`
are persisted); price/edition coercion errors are raised by the web layer before
`add_book` runs; when the underlying write fails `add_book` returns `none` and no row
is persisted; on success it returns the newly assigned id (the AUTOINCREMENT counter)
and appends exactly the new row. -/
theorem C4_add_failure_and_success (s : Store) (name subject : List Char) (price : Rat)
    (edition : Int) :
    add_book s true name subject price edition = (s, none) ∧
    (add_book s false name subject price edition).2 = some s.nextId ∧
    (add_book s false name subject price edition).1.rows =
      s.rows ++ [⟨s.nextId, name, subject, price, edition⟩] :=
  ⟨rfl, rfl, rfl⟩

unseal likeMatch in
/-- C5 (counterexample): a failed read does not surface any error: `find_books` and
`get_all_books` return the empty list on storage failure, indistinguishable from the
genuine no-match result, even though the store holds a matching row. -/
theorem C5_counterexample :
    (find_books ⟨[⟨1, ( "Organic Chemistry" ).data, ( "Science" ).data, 1100, 10⟩], 2⟩
      true ( "organic" ).data).2 = [] ∧
    (find_books ⟨[⟨1, ( "Organic Chemistry" ).data, ( "Science" ).data, 1100, 10⟩], 2⟩
      false ( "organic" ).data).2 =
      [⟨1, ( "Organic Chemistry" ).data, ( "Science" ).data, 1100, 10⟩] ∧
    get_all_books ⟨[⟨1, ( "Organic Chemistry" ).data, ( "Science" ).data, 1100, 10⟩], 2⟩
      true = [] ∧
    (⟨[⟨1, ( "Organic Chemistry" ).data, ( "Science" ).data, 1100, 10⟩], 2⟩ :
      Store).rows ≠ [] := by
  refine ⟨rfl, rfl, rfl, ?_⟩
  intro h
  cases h

/-- C5 (amended): `find_books` and `get_all_books` catch every storage failure
internally and return the empty sequence in its place (after printing), leaving the
store untouched; no `StorageError` reaches the caller, so an empty result does not
distinguish a failed read from no matches or an empty store. -/
theorem C5_failure_returns_empty (s : Store) (q : List Char) :
    find_books s true q = (s, []) ∧ get_all_books s true = [] :=
  ⟨rfl, rfl⟩

/-- C6: `remove_book` returns true exactly when a row with the given id was present
(and is then deleted); a second removal of the same id returns false — whether or not
the underlying delete fails — and leaves the store (hence its row count) unchanged. -/
theorem C6_remove_idempotent (s : Store) (id : Nat) (fail2 : Bool) :
    ((remove_book s false id).2 = true ↔ ∃ b ∈ s.rows, b.book_id = id) ∧
    (remove_book (remove_book s false id).1 fail2 id).2 = false ∧
    (remove_book (remove_book s false id).1 fail2 id).1 = (remove_book s false id).1 := by
  refine ⟨by simp [remove_book], ?_, ?_⟩
  · cases fail2 with
    | true => simp [remove_book]
    | false =>
      simp [remove_book, List.any_eq_true, List.mem_filter]
  · cases fail2 with
    | true => simp [remove_book]
    | false =>
      simp [remove_book, List.filter_filter]

/-- C8: `get_all_books` on a successful read returns a permutation of every stored row,
ordered by descending `book_id`, and the empty store yields the empty sequence. -/
theorem C8_list_all_desc (s : Store) :
    (get_all_books s false).Perm s.rows ∧
    (get_all_books s false).Pairwise (fun a b => b.book_id ≤ a.book_id) ∧
    (∀ n : Nat, get_all_books ⟨[], n⟩ false = []) := by
  refine ⟨?_, ?_, fun n => by simp [get_all_books]⟩
  · simpa [get_all_books] using
      List.mergeSort_perm s.rows (fun a b => decide (b.book_id ≤ a.book_id))
  · have h : (s.rows.mergeSort (fun a b => decide (b.book_id ≤ a.book_id))).Pairwise
        (fun a b => decide (b.book_id ≤ a.book_id) = true) := by
      apply List.sorted_mergeSort
      · intro a b c h1 h2
        simp only [decide_eq_true_eq] at h1 h2 ⊢
        omega
      · intro a b
        simp only [Bool.or_eq_true, decide_eq_true_eq]
        omega
    have h2 := h.imp (fun hab => by simpa using hab)
    simpa [get_all_books] using h2

/-- C9: the empty query is not special-cased; its LIKE pattern is `%%`, which matches
every row, so the search returns the whole table. -/
theorem C9_empty_query_matches_all (s : Store) : (find_books s false []).2 = s.rows := by
  have hnw : NoWild (stripLower []) := by decide
  have h0 : stripLower [] = ([] : List Char) := rfl
  have hall : ∀ b : Book, b ∈ s.rows →
      (likeMatch ( '%' :: (stripLower [] ++ [ '%' ])) (lowerL b.name) ||
        likeMatch ( '%' :: (stripLower [] ++ [ '%' ])) (lowerL b.subject)) = true := by
    intro b _
    have h1 : likeMatch ( '%' :: (stripLower [] ++ [ '%' ])) (lowerL b.name) = true := by
      rw [likeMatch_substr _ hnw, h0]
      exact ⟨[], lowerL b.name, by simp⟩
    simp [h1]
  simp only [find_books, if_neg, Bool.false_eq_true, not_false_iff, ite_false]
  exact List.filter_eq_self.mpr hall

/-- C10: search and recommendation are read-only: both return the store unchanged —
they consist only of `SELECT` reads, never an insert, update, or delete. -/
theorem C10_read_only (s : Store) (fail : Bool) (q : List Char)
    (iter : List (List Char)) (found : List Book) :
    (find_books s fail q).1 = s ∧ (get_recommendations s fail iter q found).1 = s := by
  constructor
  · cases fail <;> simp [find_books]
  · cases found with
    | cons b tl => cases fail <;> simp [get_recommendations]
    | nil =>
      cases h : iter.find? (fun sub => isSubstr (stripLower q) (lowerL sub)) with
      | none => simp [get_recommendations, h]
      | some t => cases fail <;> cases ht : t.isEmpty <;> simp [get_recommendations, h, ht]

unseal likeMatch in
/-- C1 (counterexample): the claim fails for queries containing a `LIKE` wildcard:
searching for `a_c` returns the book named `abc`, although `a_c` is a substring of
neither the lower-cased name nor the lower-cased subject. -/
theorem C1_counterexample :
    (find_books ⟨[⟨1, ( "abc" ).data, ( "zzz" ).data, 5, 1⟩], 2⟩ false
      ( "a_c" ).data).2 = [⟨1, ( "abc" ).data, ( "zzz" ).data, 5, 1⟩] ∧
    ¬ Substr (stripLower ( "a_c" ).data) (lowerL ( "abc" ).data) ∧
    ¬ Substr (stripLower ( "a_c" ).data) (lowerL ( "zzz" ).data) := by
  have h1 : isSubstr (stripLower ( "a_c" ).data) (lowerL ( "abc" ).data) = false := by
    decide
  have h2 : isSubstr (stripLower ( "a_c" ).data) (lowerL ( "zzz" ).data) = false := by
    decide
  refine ⟨rfl, ?_, ?_⟩
  · intro hs
    rw [(isSubstr_iff _ _).2 hs] at h1
    cases h1
  · intro hs
    rw [(isSubstr_iff _ _).2 hs] at h2
    cases h2

/-- C1 (amended): for every query whose trimmed, lower-cased form contains no `LIKE`
wildcard (`%` or `_`), the search returns exactly those stored books for which that
form is a substring of the lower-cased name or of the lower-cased subject. -/
theorem C1_search_exact_substring (s : Store) (q : List Char)
    (hq : NoWild (stripLower q)) (b : Book) :
    b ∈ (find_books s false q).2 ↔
      b ∈ s.rows ∧ (Substr (stripLower q) (lowerL b.name) ∨
        Substr (stripLower q) (lowerL b.subject)) :=
  find_books_mem s q hq b

/-- C1 (witness): the amended theorem applied to a one-book store and the query
`" Ence "`, whose trimmed lower-cased form `ence` is wildcard-free. -/
theorem C1_search_exact_substring_witness :
    NoWild (stripLower ( " Ence " ).data) ∧
    ((⟨1, ( "B" ).data, ( "Science" ).data, 1, 1⟩ : Book) ∈
        (find_books ⟨[⟨1, ( "B" ).data, ( "Science" ).data, 1, 1⟩], 2⟩ false
          ( " Ence " ).data).2 ↔
      (⟨1, ( "B" ).data, ( "Science" ).data, 1, 1⟩ : Book) ∈
          (⟨[⟨1, ( "B" ).data, ( "Science" ).data, 1, 1⟩], 2⟩ : Store).rows ∧
        (Substr (stripLower ( " Ence " ).data) (lowerL ( "B" ).data) ∨
          Substr (stripLower ( " Ence " ).data) (lowerL ( "Science" ).data))) :=
  ⟨by decide, C1_search_exact_substring _ _ (by decide) _⟩

/-- C2: whenever a target subject is selected — from the first found book, or as a
non-empty (hence truthy, src/app.py:142) member of the subject set — the suggestions
are exactly the stored books whose subject equals the target by string equality, minus
those whose lower-cased name equals the trimmed, lower-cased query; the message is
never empty; and the suggestion list can be empty even though the message names a
target subject. -/
theorem C2_recommend_exact (s : Store) (iter : List (List Char)) (q : List Char)
    (found : List Book) :
    (∀ fail, (get_recommendations s fail iter q found).2.1 ≠ []) ∧
    (∀ b tl, found = b :: tl → ∀ bk : Book,
      bk ∈ (get_recommendations s false iter q found).2.2 ↔
        bk ∈ s.rows ∧ bk.subject = b.subject ∧ ¬ lowerL bk.name = stripLower q) ∧
    (∀ t, found = [] →
      iter.find? (fun sub => isSubstr (stripLower q) (lowerL sub)) = some t →
      ¬ t = [] →
      ∀ bk : Book, bk ∈ (get_recommendations s false iter q found).2.2 ↔
        bk ∈ s.rows ∧ bk.subject = t ∧ ¬ lowerL bk.name = stripLower q) ∧
    (∃ s0 : Store, ∃ iter0 : List (List Char), ∃ q0 t0 : List Char,
      ValidIter s0 iter0 ∧ s0.rows ≠ [] ∧
      (get_recommendations s0 false iter0 q0 []).2 = (successMsg t0, [])) := by
  refine ⟨?_, ?_, ?_, ?_⟩
  · intro fail
    cases found with
    | cons b tl =>
      cases fail with
      | true => simpa [get_recommendations] using recErrMsg_ne_nil
      | false => simpa [get_recommendations] using successMsg_ne_nil b.subject
    | nil =>
      cases h : iter.find? (fun sub => isSubstr (stripLower q) (lowerL sub)) with
      | none =>
        simpa [get_recommendations, h] using noMatchMsg_ne_nil (stripLower q) iter
      | some t =>
        cases ht : t.isEmpty with
        | true =>
          simpa [get_recommendations, h, ht] using
            noMatchMsg_ne_nil (stripLower q) iter
        | false =>
          cases fail with
          | true => simpa [get_recommendations, h, ht] using recErrMsg_ne_nil
          | false => simpa [get_recommendations, h, ht] using successMsg_ne_nil t
  · intro b tl hf bk
    subst hf
    simp [get_recommendations, List.mem_filter, and_assoc]
    tauto
  · intro t hf hfind htne bk
    subst hf
    have htE : t.isEmpty = false := by
      cases t with
      | nil => exact absurd rfl htne
      | cons a l => rfl
    simp [get_recommendations, hfind, htE, List.mem_filter, and_assoc]
    tauto
  · refine ⟨⟨[⟨1, ( "Math" ).data, ( "Mathematics" ).data, 1, 1⟩], 2⟩,
      [( "Mathematics" ).data], ( "math" ).data, ( "Mathematics" ).data,
      by decide, by simp, rfl⟩

/-- C2 (witness): the exact-filter characterization applied to a one-book store with
`found` holding that book, evaluated at the book itself (it survives the filter since
its lower-cased name differs from the query). -/
theorem C2_recommend_exact_witness :
    (⟨1, ( "A" ).data, ( "S" ).data, 1, 1⟩ : Book) ∈
        (get_recommendations ⟨[⟨1, ( "A" ).data, ( "S" ).data, 1, 1⟩], 2⟩ false []
          ( "zzz" ).data [⟨1, ( "A" ).data, ( "S" ).data, 1, 1⟩]).2.2 ↔
      (⟨1, ( "A" ).data, ( "S" ).data, 1, 1⟩ : Book) ∈
          (⟨[⟨1, ( "A" ).data, ( "S" ).data, 1, 1⟩], 2⟩ : Store).rows ∧
        (⟨1, ( "A" ).data, ( "S" ).data, 1, 1⟩ : Book).subject =
          (⟨1, ( "A" ).data, ( "S" ).data, 1, 1⟩ : Book).subject ∧
        ¬ lowerL (⟨1, ( "A" ).data, ( "S" ).data, 1, 1⟩ : Book).name =
          stripLower ( "zzz" ).data :=
  (C2_recommend_exact ⟨[⟨1, ( "A" ).data, ( "S" ).data, 1, 1⟩], 2⟩ []
    ( "zzz" ).data [⟨1, ( "A" ).data, ( "S" ).data, 1, 1⟩]).2.1
    ⟨1, ( "A" ).data, ( "S" ).data, 1, 1⟩ [] rfl
    ⟨1, ( "A" ).data, ( "S" ).data, 1, 1⟩

/-- C3: when no found book is passed and no known subject contains the trimmed,
lower-cased query, `get_recommendations` returns, as a normal value, an empty
suggestion list together with the no-match message, which contains the query and every
distinct subject of the store (comma-joined via `joinComma`), and falls back to the
none-available text on a store without subjects. -/
theorem C3_no_subject_lists_subjects (s : Store) (iter : List (List Char))
    (q : List Char) (hV : ValidIter s iter)
    (hNo : ∀ sub ∈ iter, isSubstr (stripLower q) (lowerL sub) = false) :
    (get_recommendations s false iter q []).2 = (noMatchMsg (stripLower q) iter, []) ∧
    Substr (stripLower q) (noMatchMsg (stripLower q) iter) ∧
    (∀ sub ∈ s.rows.map Book.subject, Substr sub (noMatchMsg (stripLower q) iter)) ∧
    (s.rows = [] → iter = []) ∧
    (iter = [] →
      Substr ( "No subjects available." ).data (noMatchMsg (stripLower q) iter)) := by
  have hfind : iter.find? (fun sub => isSubstr (stripLower q) (lowerL sub)) = none :=
    List.find?_eq_none.mpr (fun x hx => by simp [hNo x hx])
  refine ⟨by simp [get_recommendations, hfind], ?_, ?_, ?_, ?_⟩
  · simp only [noMatchMsg]
    exact substr_app_right _ _ _ (substr_app_right _ _ _
      (substr_app_left _ _ _ (substr_self _)))
  · intro sub hs
    have hmem : sub ∈ iter := hV.2.2 sub hs
    cases iter with
    | nil => cases hmem
    | cons x l =>
      simp only [noMatchMsg, List.isEmpty_cons, if_neg, Bool.false_eq_true,
        not_false_iff, ite_false]
      exact substr_app_left _ _ _ (substr_joinComma sub (x :: l) hmem)
  · intro hrows
    cases hi : iter with
    | nil => rfl
    | cons x l =>
      have : x ∈ s.rows.map Book.subject := hV.2.1 x (by simp [hi])
      rw [hrows] at this
      cases this
  · intro hiter
    subst hiter
    simp only [noMatchMsg, List.isEmpty_nil, ite_true]
    exact substr_app_left _ _ _ (substr_self _)

/-- C3 (witness): the no-match result on a one-book store with subject `Science` and
the unrelated query `qqq`. -/
theorem C3_no_subject_lists_subjects_witness :
    ValidIter ⟨[⟨1, ( "B" ).data, ( "Science" ).data, 1, 1⟩], 2⟩ [( "Science" ).data] ∧
    (get_recommendations ⟨[⟨1, ( "B" ).data, ( "Science" ).data, 1, 1⟩], 2⟩ false
        [( "Science" ).data] ( "qqq" ).data []).2 =
      (noMatchMsg (stripLower ( "qqq" ).data) [( "Science" ).data], []) :=
  ⟨by decide,
    (C3_no_subject_lists_subjects ⟨[⟨1, ( "B" ).data, ( "Science" ).data, 1, 1⟩], 2⟩
      [( "Science" ).data] ( "qqq" ).data (by decide) (by decide)).1⟩

/-- C7 (counterexample): the target subject depends on the iteration order of the
subject set: with subjects `sa` and `sb`, both containing the query `s`, the two
orders of the same set give different recommendation results, so two runs of the
process (whose set iteration orders may differ) need not agree. -/
theorem C7_counterexample :
    ValidIter ⟨[⟨1, ( "n1" ).data, ( "sa" ).data, 1, 1⟩,
        ⟨2, ( "n2" ).data, ( "sb" ).data, 1, 1⟩], 3⟩
      [( "sa" ).data, ( "sb" ).data] ∧
    ValidIter ⟨[⟨1, ( "n1" ).data, ( "sa" ).data, 1, 1⟩,
        ⟨2, ( "n2" ).data, ( "sb" ).data, 1, 1⟩], 3⟩
      [( "sb" ).data, ( "sa" ).data] ∧
    ¬ get_recommendations ⟨[⟨1, ( "n1" ).data, ( "sa" ).data, 1, 1⟩,
        ⟨2, ( "n2" ).data, ( "sb" ).data, 1, 1⟩], 3⟩ false
        [( "sa" ).data, ( "sb" ).data] ( "s" ).data [] =
      get_recommendations ⟨[⟨1, ( "n1" ).data, ( "sa" ).data, 1, 1⟩,
        ⟨2, ( "n2" ).data, ( "sb" ).data, 1, 1⟩], 3⟩ false
        [( "sb" ).data, ( "sa" ).data] ( "s" ).data [] := by
  refine ⟨by decide, by decide, by decide⟩

/-- C7 (amended): the result of `get_recommendations` is a deterministic function of
the store, query, found list, and the subject-set iteration order; moreover it is
independent of that order whenever at most one fixed subject matches the query — the
divergence is confined to the multi-match tie-break (and the subject listing in the
no-match message). -/
theorem C7_deterministic_given_unique (s : Store) (iter1 iter2 : List (List Char))
    (q t : List Char) (h1 : ValidIter s iter1) (h2 : ValidIter s iter2)
    (htmem : t ∈ s.rows.map Book.subject)
    (htmatch : isSubstr (stripLower q) (lowerL t) = true)
    (huniq : ∀ y ∈ s.rows.map Book.subject,
      isSubstr (stripLower q) (lowerL y) = true → y = t) :
    ∀ (fail : Bool) (found : List Book),
      get_recommendations s fail iter1 q found =
        get_recommendations s fail iter2 q found := by
  intro fail found
  cases found with
  | cons b tl => rfl
  | nil =>
    have e1 : iter1.find? (fun sub => isSubstr (stripLower q) (lowerL sub)) = some t :=
      find?_eq_some_of_mem_unique _ t iter1 (h1.2.2 t htmem) htmatch
        (fun x hx hpx => huniq x (h1.2.1 x hx) hpx)
    have e2 : iter2.find? (fun sub => isSubstr (stripLower q) (lowerL sub)) = some t :=
      find?_eq_some_of_mem_unique _ t iter2 (h2.2.2 t htmem) htmatch
        (fun x hx hpx => huniq x (h2.2.1 x hx) hpx)
    by_cases ht : t = []
    · subst ht
      have hq : stripLower q = [] := by
        have h0 : headMatch (stripLower q) [] = true := by
          simpa [isSubstr, lowerL] using htmatch
        obtain ⟨r, hr⟩ := (headMatch_iff (stripLower q) []).1 h0
        exact (List.append_eq_nil.mp hr.symm).1
      have hall1 : ∀ x ∈ iter1, x = ([] : List Char) := fun x hx =>
        huniq x (h1.2.1 x hx) (by rw [hq]; exact isSubstr_nil_left _)
      have hall2 : ∀ x ∈ iter2, x = ([] : List Char) := fun x hx =>
        huniq x (h2.2.1 x hx) (by rw [hq]; exact isSubstr_nil_left _)
      have hi1 : iter1 = [[]] :=
        nodup_all_eq_singleton [] iter1 h1.1 hall1 (h1.2.2 [] htmem)
      have hi2 : iter2 = [[]] :=
        nodup_all_eq_singleton [] iter2 h2.1 hall2 (h2.2.2 [] htmem)
      rw [hi1, hi2]
    · have htE : t.isEmpty = false := by
        cases t with
        | nil => exact absurd rfl ht
        | cons a l => rfl
      simp [get_recommendations, e1, e2, htE]

/-- C7 (witness): two different iteration orders of the subject set `{sa, zb}` with
the query `s`, which matches only `sa`: the results coincide. -/
theorem C7_deterministic_given_unique_witness :
    ValidIter ⟨[⟨1, ( "n1" ).data, ( "sa" ).data, 1, 1⟩,
        ⟨2, ( "n2" ).data, ( "zb" ).data, 1, 1⟩], 3⟩
      [( "sa" ).data, ( "zb" ).data] ∧
    get_recommendations ⟨[⟨1, ( "n1" ).data, ( "sa" ).data, 1, 1⟩,
        ⟨2, ( "n2" ).data, ( "zb" ).data, 1, 1⟩], 3⟩ false
        [( "sa" ).data, ( "zb" ).data] ( "s" ).data [] =
      get_recommendations ⟨[⟨1, ( "n1" ).data, ( "sa" ).data, 1, 1⟩,
        ⟨2, ( "n2" ).data, ( "zb" ).data, 1, 1⟩], 3⟩ false
        [( "zb" ).data, ( "sa" ).data] ( "s" ).data [] :=
  ⟨by decide,
    C7_deterministic_given_unique ⟨[⟨1, ( "n1" ).data, ( "sa" ).data, 1, 1⟩,
        ⟨2, ( "n2" ).data, ( "zb" ).data, 1, 1⟩], 3⟩
      [( "sa" ).data, ( "zb" ).data] [( "zb" ).data, ( "sa" ).data]
      ( "s" ).data ( "sa" ).data (by decide) (by decide) (by decide) (by decide)
      (by decide) false []⟩
